import Mathlib

/-!
Shallow embedding of the Kenta push-to-talk firmware client (`app_main` and
its helpers, in the mDNS/debounce revision of `main.c`).  Pure helpers
(`button_pressed`, the PCM conversion in `read_i2s_pcm`, the mDNS resolve
loop) are embedded as Lean functions over explicit state; the `app_main`
control loop is embedded as a step function on a machine-context record,
with the environment (clock, button level, I/O outcomes) supplied as one
input record per loop iteration and the observable I/O actions (connect,
frame send, end-marker send, close) emitted as an event list.
-/

-- ===========================================================================
-- Constants (from the #defines in main.c)
-- ===========================================================================

/-- `PCM_FRAME_LEN`: samples per audio frame. -/
def PCM_FRAME_LEN : Nat := 256

/-- `WAIT_TIMEOUT_US`: grace period after button release, in microseconds. -/
def WAIT_TIMEOUT_US : Int := 3 * 1000 * 1000

/-- `RECV_TIMEOUT_S`: overall deadline in the PROCESSING state, in seconds. -/
def RECV_TIMEOUT_S : Int := 120

/-- `DEBOUNCE_US`: button debounce time in microseconds. -/
def DEBOUNCE_US : Int := 30 * 1000

/-- `MDNS_RESOLVE_RETRIES`: bound on mDNS discovery attempts. -/
def MDNS_RESOLVE_RETRIES : Nat := 5

-- ===========================================================================
-- Debouncer: button_pressed() and its two static variables
-- ===========================================================================

/-- The two `static` variables of the debouncer: `last_button_change`
(0 is the no-pending-change sentinel) and `debounced_state`. -/
structure DebState where
  last_button_change : Int
  debounced_state : Bool
  deriving DecidableEq, Repr

/-- `button_pressed()`: one poll of the raw level `raw` at time `now`
(`esp_timer_get_time()`), returning the updated static state and the
returned stable level.  Mirrors the body: a raw level differing from the
stable one starts (or checks) the pending change; it is promoted only when
`now - last_button_change > DEBOUNCE_US`; a raw level equal to the stable
one clears the pending change. -/
def button_pressed (s : DebState) (raw : Bool) (now : Int) : DebState × Bool :=
  if raw ≠ s.debounced_state then
    if s.last_button_change = 0 then
      ({ s with last_button_change := now }, s.debounced_state)
    else if DEBOUNCE_US < now - s.last_button_change then
      ({ last_button_change := 0, debounced_state := raw }, raw)
    else
      (s, s.debounced_state)
  else
    ({ s with last_button_change := 0 }, s.debounced_state)

/-- Run the debouncer over a list of polls `(raw level, time)`, collecting
the returned stable levels. -/
def debRun (s : DebState) : List (Bool × Int) → DebState × List Bool
  | [] => (s, [])
  | (raw, t) :: rest =>
    ((debRun (button_pressed s raw t).1 rest).1,
      (button_pressed s raw t).2 :: (debRun (button_pressed s raw t).1 rest).2)

-- ===========================================================================
-- Sample conversion: pcm_frame[i] = (int16_t)(i2s_raw[i] >> 16)
-- ===========================================================================

/-- The C cast `(int16_t)`: truncation of a signed value to its low 16 bits,
reinterpreted as a signed 16-bit value. -/
def toInt16 (v : Int) : Int :=
  if v % 65536 < 32768 then v % 65536 else v % 65536 - 65536

/-- The per-sample conversion of `read_i2s_pcm`:
`pcm_frame[i] = (int16_t)(i2s_raw[i] >> 16)` — arithmetic right shift of the
signed 32-bit raw sample by 16 (floor division by 2^16, the behaviour of
`>>` on the target), then the `int16_t` cast. -/
def pcm_of_raw (v : Int) : Int := toInt16 (v / 65536)

/-- Modelled from the spec's words for the conversion law: the top 16 bits
of the raw sample's 32-bit container, read as a signed 16-bit value. -/
def topBits16 (v : Int) : Int :=
  if v % 4294967296 / 65536 < 32768 then v % 4294967296 / 65536
  else v % 4294967296 / 65536 - 65536

-- ===========================================================================
-- Frame assembly: the accumulation loop of read_i2s_pcm
-- ===========================================================================

/-- The accumulation loop of `read_i2s_pcm`.  Each element of `reads` is the
outcome of one `i2s_channel_read` call: `none` an error return (the function
returns false), `some b` a successful read of `b` bytes
(`samples_got += bytes_read / sizeof(int32_t)`).  The loop exits as soon as
`samples_got` reaches `PCM_FRAME_LEN`; running out of modelled reads before
that (`none` result) means the call did not complete within the modelled
outcomes. -/
def read_i2s_pcm_loop : List (Option Nat) → Nat → Option Nat
  | [], samples_got =>
    if PCM_FRAME_LEN ≤ samples_got then some samples_got else none
  | r :: rest, samples_got =>
    if PCM_FRAME_LEN ≤ samples_got then some samples_got
    else
      match r with
      | none => none
      | some bytes_read => read_i2s_pcm_loop rest (samples_got + bytes_read / 4)

/-- The `i2s_channel_read` contract as exercised by the loop: each successful
read returns at most the requested `need * sizeof(int32_t)` bytes. -/
def reads_within_request : List (Option Nat) → Nat → Bool
  | [], _ => true
  | r :: rest, samples_got =>
    if PCM_FRAME_LEN ≤ samples_got then true
    else
      match r with
      | none => true
      | some bytes_read =>
        decide (bytes_read ≤ (PCM_FRAME_LEN - samples_got) * 4) &&
          reads_within_request rest (samples_got + bytes_read / 4)

-- ===========================================================================
-- mDNS resolution: resolve_mdns_hostname() and the fallback in app_main
-- ===========================================================================

/-- The `for (attempt = 0; attempt < MDNS_RESOLVE_RETRIES; attempt++)` loop
of `resolve_mdns_hostname`: each element of the list is the outcome of one
`mdns_query_a` call (`some addr` on `ESP_OK`, `none` on failure); the first
success is returned immediately, exhaustion of the retry budget (or of the
outcomes) yields `none`. -/
def mdns_query_loop {A : Type} : Nat → List (Option A) → Option A
  | 0, _ => none
  | _ + 1, [] => none
  | fuel + 1, attempt :: rest =>
    match attempt with
    | some addr => some addr
    | none => mdns_query_loop fuel rest

/-- `resolve_mdns_hostname()`: `mdns_init` failure returns false (no
address); otherwise the bounded query loop runs. -/
def resolve_mdns_hostname {A : Type} (mdns_init_ok : Bool)
    (attempts : List (Option A)) : Option A :=
  if mdns_init_ok then mdns_query_loop MDNS_RESOLVE_RETRIES attempts else none

/-- The caller in `app_main`: on resolution failure, `resolved_ip` is set to
the statically configured `SERVER_IP` fallback. -/
def server_addr {A : Type} (mdns_init_ok : Bool) (attempts : List (Option A))
    (fallback : A) : A :=
  (resolve_mdns_hostname mdns_init_ok attempts).getD fallback

-- ===========================================================================
-- The app_main control loop
-- ===========================================================================

/-- `state_t` from main.c. -/
inductive MachState
  | idle
  | recording
  | wait
  | processing
  deriving DecidableEq, Repr

/-- Observable I/O actions of one loop iteration: a `tcp_connect()` call and
its outcome, a successful audio-frame `send`, the end-marker `send`, and
`close(sock)`. -/
inductive Ev
  | connected (handle : Nat)
  | connectFailed
  | frameSent
  | markerSent
  | ackOk
  | ackBad
  | closed
  deriving DecidableEq, Repr

/-- The environment of one loop iteration: the clock reading, the stable
button level returned by `button_pressed()`, and the outcomes of the I/O
calls the iteration may make.  `connectRes` is the `tcp_connect()` result
(`none` for -1, `some h` for a valid descriptor `h ≥ 0`); `recvN` and
`recvByte` are the `recv` return value and the byte it stored. -/
structure Tick where
  now : Int
  pressed : Bool
  connectRes : Option Nat
  i2sOk : Bool
  sendFrameOk : Bool
  sendMarkerOk : Bool
  selectRes : Int
  recvN : Int
  recvByte : Nat
  deriving DecidableEq, Repr

/-- The mutable context of `app_main`: `state`, `sock`, `wait_start`,
`process_start`, `led_on`, `last_blink`. -/
structure Loop where
  state : MachState
  sock : Int
  wait_start : Int
  process_start : Int
  led_on : Bool
  last_blink : Int
  deriving DecidableEq, Repr

/-- The initial values in `app_main` before the `while (1)` loop. -/
def initLoop : Loop :=
  { state := .idle, sock := -1, wait_start := 0, process_start := 0,
    led_on := false, last_blink := 0 }

/-- The blink bookkeeping at the top of STATE_WAIT: toggle `led_on` and
refresh `last_blink` when more than 333 ms have passed since the last
toggle. -/
def blinkUpdate (s : Loop) (t : Tick) : Loop :=
  if 333 * 1000 < t.now - s.last_blink then
    { s with led_on := !s.led_on, last_blink := t.now }
  else s

/-- One iteration of the `while (1)` `switch (state)` loop of `app_main`
(mDNS/debounce revision), transcribed case by case; the LED GPIO writes are
dropped, the `led_on`/`last_blink` blink bookkeeping of STATE_WAIT is kept.
The several `esp_timer_get_time()` calls of one iteration are modelled by
the single reading `t.now`. -/
def step (s : Loop) (t : Tick) : Loop × List Ev :=
  match s.state with
  | .idle =>
    if t.pressed then
      match t.connectRes with
      | none => ({ s with sock := -1 }, [.connectFailed])
      | some h => ({ s with sock := (h : Int), state := .recording }, [.connected h])
    else (s, [])
  | .recording =>
    if !t.i2sOk then (s, [])
    else if !t.sendFrameOk then
      ({ s with sock := -1, state := .idle }, [.closed])
    else if !t.pressed then
      ({ s with state := .wait, wait_start := t.now, last_blink := t.now, led_on := true }, [.frameSent])
    else (s, [.frameSent])
  | .wait =>
    if t.pressed then ({ blinkUpdate s t with state := .recording }, [])
    else if WAIT_TIMEOUT_US < t.now - s.wait_start then
      if t.sendMarkerOk then
        ({ blinkUpdate s t with state := .processing, process_start := t.now }, [.markerSent])
      else ({ blinkUpdate s t with sock := -1, state := .idle }, [.closed])
    else if !t.i2sOk then (blinkUpdate s t, [])
    else if !t.sendFrameOk then
      ({ blinkUpdate s t with sock := -1, state := .idle }, [.closed])
    else (blinkUpdate s t, [.frameSent])
  | .processing =>
    if 0 < t.selectRes then
      ({ s with sock := -1, state := .idle },
        [if t.recvN = 1 ∧ t.recvByte = 1 then Ev.ackOk else Ev.ackBad, Ev.closed])
    else if t.selectRes < 0 then
      ({ s with sock := -1, state := .idle }, [.closed])
    else if RECV_TIMEOUT_S * 1000 * 1000 < t.now - s.process_start then
      ({ s with sock := -1, state := .idle }, [.closed])
    else (s, [])

/-- Run the loop over a list of iteration environments, collecting the
emitted events. -/
def runLoop (s : Loop) : List Tick → Loop × List Ev
  | [] => (s, [])
  | t :: ts =>
    ((runLoop (step s t).1 ts).1, (step s t).2 ++ (runLoop (step s t).1 ts).2)

-- ===========================================================================
-- Session-ordering monitor (for the ordering law)
-- ===========================================================================

/-- Protocol phase of the single Session, as determined by the event trace:
no session open, streaming (open, marker not yet sent), or marked (end
marker sent, awaiting acknowledgment). -/
inductive SessionPhase
  | noSession
  | streaming
  | marked
  deriving DecidableEq, Repr

/-- The legal-event relation: frames only while streaming, the marker only
once per session (streaming → marked), acknowledgment reads only after the
marker, close only on an open session, connects only with no session. -/
def sessionStep : SessionPhase → Ev → Option SessionPhase
  | .noSession, .connected _ => some .streaming
  | .noSession, .connectFailed => some .noSession
  | .streaming, .frameSent => some .streaming
  | .streaming, .markerSent => some .marked
  | .streaming, .closed => some .noSession
  | .marked, .ackOk => some .marked
  | .marked, .ackBad => some .marked
  | .marked, .closed => some .noSession
  | _, _ => none

/-- Run the monitor over an event trace; `none` means a violation. -/
def sessionRun : SessionPhase → List Ev → Option SessionPhase
  | p, [] => some p
  | p, e :: rest =>
    match sessionStep p e with
    | none => none
    | some q => sessionRun q rest

/-- The session phase determined by the machine state. -/
def phaseOf : MachState → SessionPhase
  | .idle => .noSession
  | .recording => .streaming
  | .wait => .streaming
  | .processing => .marked

/-- Count the events selected by `f`. -/
def countEv (f : Ev → Bool) (l : List Ev) : Nat := (l.filter f).length

/-- Selector for successful-connect events. -/
def isConnectEv : Ev → Bool
  | .connected _ => true
  | _ => false

/-- Selector for end-marker events. -/
def isMarkerEv : Ev → Bool
  | .markerSent => true
  | _ => false

/-- Selector for close events. -/
def isCloseEv : Ev → Bool
  | .closed => true
  | _ => false

/-- The socket-handle invariant: `-1` exactly in IDLE, a valid descriptor
otherwise. -/
def sockInv (s : Loop) : Prop :=
  (s.state = .idle → s.sock = -1) ∧ (s.state ≠ .idle → 0 ≤ s.sock)

-- ===========================================================================
-- Concrete fixtures used by witnesses and counterexamples
-- ===========================================================================

/-- A WAIT-state context with an open socket. -/
def waitCtx : Loop :=
  { state := .wait, sock := 5, wait_start := 0, process_start := 0,
    led_on := true, last_blink := 0 }

/-- A PROCESSING-state context with an open socket. -/
def procCtx : Loop :=
  { state := .processing, sock := 5, wait_start := 0, process_start := 1000,
    led_on := false, last_blink := 0 }

/-- A quiet environment record; fixtures below override single fields. -/
def baseTick : Tick :=
  { now := 0, pressed := false, connectRes := none, i2sOk := true,
    sendFrameOk := true, sendMarkerOk := true, selectRes := 0,
    recvN := 0, recvByte := 0 }

/-- WAIT iteration after the grace period with the marker send succeeding. -/
def graceTick : Tick := { baseTick with now := 4000000 }

/-- WAIT iteration after the grace period with the marker send failing. -/
def graceFailTick : Tick := { baseTick with now := 4000000, sendMarkerOk := false }

/-- PROCESSING iteration past the overall deadline with no byte available. -/
def timeoutTick : Tick := { baseTick with now := 130000000 }

/-- PROCESSING iteration with a readable socket delivering the 0x01 byte. -/
def ackTick : Tick := { baseTick with selectRes := 1, recvN := 1, recvByte := 1 }

/-- PROCESSING iteration with a readable socket and a zero-length read. -/
def eofTick : Tick := { baseTick with selectRes := 1, recvN := 0 }

/-- IDLE iteration with a press and a successful connect. -/
def pressTick : Tick := { baseTick with pressed := true, connectRes := some 7 }

/-- RECORDING iteration with the button still held. -/
def holdTick : Tick := { baseTick with now := 16000, pressed := true }

/-- RECORDING iteration with the button released. -/
def releaseTick : Tick := { baseTick with now := 32000 }

/-- WAIT iteration with a re-press inside the grace period. -/
def resumeTick : Tick := { baseTick with now := 1032000, pressed := true }

/-- RECORDING iteration after the resume. -/
def afterResumeTick : Tick := { baseTick with now := 1048000, pressed := true }

/-- The resume scenario: press, two frames, release, re-press within the
grace period, one more frame. -/
def resumeScenario : List Tick :=
  [pressTick, holdTick, releaseTick, resumeTick, afterResumeTick]

/-- IDLE press whose connect succeeds with descriptor 5. -/
def cexConnectTick : Tick := { baseTick with pressed := true, connectRes := some 5 }

/-- RECORDING iteration whose frame send fails. -/
def cexSendFailTick : Tick :=
  { baseTick with now := 16000, pressed := true, sendFrameOk := false }

/-- Read-outcome list delivering 128 + 128 samples. -/
def twoReads : List (Option Nat) := [some 512, some 512]

-- ===========================================================================
-- Theorems
-- ===========================================================================

/-- C4: for every in-range signed 32-bit raw sample, the converted sample is
the arithmetic right shift by 16 of the raw value, which equals the top 16
bits of its 32-bit container read as a signed 16-bit value; in particular
the raw sample 0x123456FF converts to 0x1234. -/
theorem c4_sample_conversion :
    (∀ v : Int, -2147483648 ≤ v → v < 2147483648 →
      pcm_of_raw v = v / 65536 ∧ pcm_of_raw v = topBits16 v) ∧
    pcm_of_raw 305419007 = 4660 := by
  constructor
  · intro v h1 h2
    unfold pcm_of_raw toInt16 topBits16
    constructor
    · split <;> omega
    · split <;> split <;> omega
  · decide

/-- C4 witness: the general conversion theorem applied at the literal raw
sample 0x123456FF. -/
theorem c4_sample_conversion_witness :
    pcm_of_raw 305419007 = 305419007 / 65536 ∧
    pcm_of_raw 305419007 = topBits16 305419007 :=
  c4_sample_conversion.1 305419007 (by decide) (by decide)

/-- C9: whenever the accumulation loop of `read_i2s_pcm` completes — under
the hardware contract that each read returns at most the requested number of
bytes — it completes with exactly `PCM_FRAME_LEN` = 256 samples gathered. -/
theorem c9_frame_assembly :
    ∀ (reads : List (Option Nat)) (samples_got n : Nat),
      samples_got ≤ PCM_FRAME_LEN →
      reads_within_request reads samples_got = true →
      read_i2s_pcm_loop reads samples_got = some n →
      n = PCM_FRAME_LEN := by
  intro reads
  induction reads with
  | nil =>
    intro got n hle _ hrun
    simp only [read_i2s_pcm_loop] at hrun
    split at hrun
    · simp only [Option.some.injEq] at hrun
      omega
    · exact absurd hrun (by simp)
  | cons r rest ih =>
    intro got n hle hwf hrun
    simp only [read_i2s_pcm_loop, reads_within_request] at hrun hwf
    split at hrun
    · simp only [Option.some.injEq] at hrun
      omega
    · match r with
      | none => exact absurd hrun (by simp)
      | some b =>
        rw [if_neg (by omega)] at hwf
        simp only [Bool.and_eq_true, decide_eq_true_eq] at hwf
        have hgot : got + b / 4 ≤ PCM_FRAME_LEN := by
          have := hwf.1
          simp only [PCM_FRAME_LEN] at *
          omega
        exact ih (got + b / 4) n hgot hwf.2 hrun

/-- C9 witness: the theorem applied at a concrete read sequence delivering
128 + 128 samples. -/
theorem c9_frame_assembly_witness :
    read_i2s_pcm_loop twoReads 0 = some 256 ∧ 256 = PCM_FRAME_LEN :=
  ⟨by decide, c9_frame_assembly twoReads 0 256 (by decide) (by decide) (by decide)⟩

/-- Helper: the query loop inspects at most `fuel` attempts. -/
theorem mdns_query_loop_take (A : Type) :
    ∀ (fuel : Nat) (l : List (Option A)),
      mdns_query_loop fuel l = mdns_query_loop fuel (l.take fuel) := by
  intro fuel
  induction fuel with
  | zero => intro l; rfl
  | succ k ih =>
    intro l
    cases l with
    | nil => rfl
    | cons x rest =>
      cases x with
      | none => simpa [mdns_query_loop] using ih rest
      | some a => rfl

/-- Helper: the first successful attempt within the budget is returned. -/
theorem mdns_query_loop_first (A : Type) :
    ∀ (pre : List (Option A)) (fuel : Nat) (a : A) (rest : List (Option A)),
      pre.length < fuel → (∀ x ∈ pre, x = none) →
      mdns_query_loop fuel (pre ++ some a :: rest) = some a := by
  intro pre
  induction pre with
  | nil =>
    intro fuel a rest hlt _
    match fuel, hlt with
    | k + 1, _ => rfl
  | cons x pre' ih =>
    intro fuel a rest hlt hall
    have hx : x = none := hall x (by simp)
    subst hx
    match fuel, hlt with
    | k + 1, hlt =>
      simp only [List.cons_append, mdns_query_loop]
      exact ih k a rest (by simpa using hlt) (fun y hy => hall y (by simp [hy]))

/-- Helper: if every attempt fails, the query loop yields no address. -/
theorem mdns_query_loop_exhaust (A : Type) :
    ∀ (fuel : Nat) (l : List (Option A)), (∀ x ∈ l, x = none) →
      mdns_query_loop fuel l = none := by
  intro fuel
  induction fuel with
  | zero => intro l _; rfl
  | succ k ih =>
    intro l hall
    cases l with
    | nil => rfl
    | cons x rest =>
      have hx : x = none := hall x (by simp)
      subst hx
      simpa [mdns_query_loop] using ih rest (fun y hy => hall y (by simp [hy]))

/-- C7: address resolution performs at most `MDNS_RESOLVE_RETRIES` = 5
attempts (later outcomes are ignored), returns the first successful
attempt's address — in particular with attempts 1–4 failed and attempt 5
successful, the connect address is attempt 5's result, not the fallback —
and falls back to the static address only when all attempts fail. -/
theorem c7_mdns_resolution :
    (∀ (A : Type) (initOk : Bool) (l : List (Option A)),
      resolve_mdns_hostname initOk l =
        resolve_mdns_hostname initOk (l.take MDNS_RESOLVE_RETRIES)) ∧
    (∀ (A : Type) (pre : List (Option A)) (a : A) (rest : List (Option A)) (fb : A),
      pre.length < MDNS_RESOLVE_RETRIES → (∀ x ∈ pre, x = none) →
      server_addr true (pre ++ some a :: rest) fb = a) ∧
    (∀ (A : Type) (l : List (Option A)) (fb : A),
      (∀ x ∈ l, x = none) → server_addr true l fb = fb) ∧
    (∀ (A : Type) (a fb : A),
      server_addr true [none, none, none, none, some a] fb = a) := by
  refine ⟨?_, ?_, ?_, ?_⟩
  · intro A initOk l
    cases initOk with
    | false => rfl
    | true =>
      simp only [resolve_mdns_hostname, if_pos]
      exact mdns_query_loop_take A MDNS_RESOLVE_RETRIES l
  · intro A pre a rest fb hlt hall
    simp only [server_addr, resolve_mdns_hostname, if_pos]
    rw [mdns_query_loop_first A pre MDNS_RESOLVE_RETRIES a rest hlt hall]
    rfl
  · intro A l fb hall
    simp only [server_addr, resolve_mdns_hostname, if_pos]
    rw [mdns_query_loop_exhaust A MDNS_RESOLVE_RETRIES l hall]
    rfl
  · intro A a fb
    rfl

/-- C7 witness: attempts 1–4 fail and attempt 5 succeeds with address 9;
the resolved address is 9, not the fallback 7. -/
theorem c7_mdns_resolution_witness :
    server_addr true ([none, none, none, none] ++ (some 9 :: [])) 7 = 9 :=
  c7_mdns_resolution.2.1 Nat [none, none, none, none] 9 [] 7 (by decide) (by decide)

/-- Helper: a first poll observing a changed raw level only records the
timestamp; the stable level is unchanged. -/
theorem button_pressed_first (b : Bool) (t : Int) :
    button_pressed ⟨0, b⟩ (!b) t = (⟨t, b⟩, b) := by
  have hne : (!b) ≠ b := by cases b <;> decide
  simp [button_pressed, hne]

/-- Helper: while the pending change is younger than the debounce interval,
a poll keeps both the pending timestamp and the stable level. -/
theorem button_pressed_hold (b : Bool) (t0 t : Int) (h0 : t0 ≠ 0)
    (hle : t - t0 ≤ DEBOUNCE_US) :
    button_pressed ⟨t0, b⟩ (!b) t = (⟨t0, b⟩, b) := by
  have hne : (!b) ≠ b := by cases b <;> decide
  have hnd : ¬ DEBOUNCE_US < t - t0 := by omega
  simp [button_pressed, hne, h0, hnd]

/-- Helper: a poll strictly more than the debounce interval after the
pending timestamp promotes the raw level to the stable level. -/
theorem button_pressed_promote (b : Bool) (t0 t : Int) (h0 : t0 ≠ 0)
    (hgt : DEBOUNCE_US < t - t0) :
    button_pressed ⟨t0, b⟩ (!b) t = (⟨0, !b⟩, !b) := by
  have hne : (!b) ≠ b := by cases b <;> decide
  simp [button_pressed, hne, h0, hgt]

/-- Helper: a poll whose raw level equals the stable level cancels any
pending change. -/
theorem button_pressed_same (b : Bool) (c t : Int) :
    button_pressed ⟨c, b⟩ b t = (⟨0, b⟩, b) := by
  simp [button_pressed]

/-- Helper: `debRun` distributes over list append. -/
theorem debRun_append (s : DebState) (a c : List (Bool × Int)) :
    debRun s (a ++ c) =
      ((debRun (debRun s a).1 c).1, (debRun s a).2 ++ (debRun (debRun s a).1 c).2) := by
  induction a generalizing s with
  | nil => simp [debRun]
  | cons p rest ih =>
    obtain ⟨raw, t⟩ := p
    simp [debRun, ih]

/-- Helper: polls of the changed raw level all within the debounce interval
of the pending timestamp leave the debouncer unmoved, outputting the old
stable level. -/
theorem debRun_hold (b : Bool) (t0 : Int) (h0 : t0 ≠ 0) :
    ∀ ts : List Int, (∀ t ∈ ts, t - t0 ≤ DEBOUNCE_US) →
      debRun ⟨t0, b⟩ (ts.map fun t => (!b, t)) =
        (⟨t0, b⟩, List.replicate ts.length b) := by
  intro ts
  induction ts with
  | nil => intro _; rfl
  | cons t rest ih =>
    intro h
    simp only [List.map_cons, debRun, button_pressed_hold b t0 t h0 (h t (by simp))]
    rw [ih (fun x hx => h x (by simp [hx]))]
    simp [List.replicate_succ]

/-- Helper: polls whose raw level equals the stable level leave a settled
debouncer unmoved, outputting the stable level. -/
theorem debRun_same (c : Bool) :
    ∀ ts : List Int,
      debRun ⟨0, c⟩ (ts.map fun t => (c, t)) = (⟨0, c⟩, List.replicate ts.length c) := by
  intro ts
  induction ts with
  | nil => rfl
  | cons t rest ih =>
    simp only [List.map_cons, debRun, button_pressed_same c 0 t]
    rw [ih]
    simp [List.replicate_succ]

/-- C3 (amended): from a settled debouncer, (i) a raw transition whose new
level is observed by polls only within `DEBOUNCE_US` of the first observing
poll and which then reverts yields zero stable transitions (the output is
constantly the old level and the pending change is cancelled), and (ii) a
raw transition held until some poll observes it strictly more than
`DEBOUNCE_US` after the first observing poll yields exactly one stable
transition (the outputs are the old level up to that poll and the new level
from it on), however many polls occur in between. -/
theorem c3_debounce_amended :
    (∀ (b : Bool) (t0 : Int) (ts : List Int) (tr : Int),
      t0 ≠ 0 → (∀ t ∈ ts, t - t0 ≤ DEBOUNCE_US) →
      debRun ⟨0, b⟩ (((!b), t0) :: (ts.map fun t => (!b, t)) ++ [(b, tr)]) =
        (⟨0, b⟩, List.replicate (ts.length + 2) b)) ∧
    (∀ (b : Bool) (t0 tj : Int) (L1 L2 : List Int),
      t0 ≠ 0 → (∀ t ∈ L1, t - t0 ≤ DEBOUNCE_US) → DEBOUNCE_US < tj - t0 →
      debRun ⟨0, b⟩ (((!b), t0) :: (L1.map fun t => (!b, t)) ++ ((!b), tj) :: (L2.map fun t => (!b, t))) =
        (⟨0, !b⟩, List.replicate (L1.length + 1) b ++ List.replicate (L2.length + 1) (!b))) := by
  constructor
  · intro b t0 ts tr h0 hts
    simp only [debRun, button_pressed_first b t0, List.append_eq]
    rw [debRun_append, debRun_hold b t0 h0 ts hts]
    simp only [debRun, button_pressed_same b t0 tr]
    simp only [List.replicate_succ, Prod.mk.injEq, List.cons.injEq, true_and]
    rw [← List.replicate_succ', List.replicate_succ]
  · intro b t0 tj L1 L2 h0 hL1 hj
    simp only [debRun, button_pressed_first b t0, List.append_eq]
    rw [debRun_append, debRun_hold b t0 h0 L1 hL1]
    simp only [debRun, button_pressed_promote b t0 tj h0 hj]
    rw [debRun_same (!b) L2]
    simp [List.replicate_succ]

/-- C3 counterexample: the claim as stated fails at the boundary.  From a
settled not-pressed debouncer, the raw level rises at t = 1 µs, is still
high when polled at t = 30001 µs — so it has been sustained for exactly
`DEBOUNCE_US` = 30000 µs, i.e. for at least the debounce interval — and
reverts by the poll at t = 30002 µs: the stable level never changes (zero
transitions, not exactly one), because the code promotes only on strictly
more than `DEBOUNCE_US`. -/
theorem c3_debounce_cex :
    debRun ⟨0, false⟩ [(true, 1), (true, 30001), (false, 30002)] =
      (⟨0, false⟩, [false, false, false]) := by decide

/-- C3 witness: the amended theorem applied at concrete poll sequences:
a 20 µs bounce reverted (outputs all false), and a change held past the
interval (outputs false, false, then true, true). -/
theorem c3_debounce_amended_witness :
    debRun ⟨0, false⟩ [(true, 10), (true, 30), (false, 200)] =
      (⟨0, false⟩, List.replicate 3 false) ∧
    debRun ⟨0, false⟩ [(true, 10), (true, 30), (true, 40000), (true, 50000)] =
      (⟨0, true⟩, List.replicate 2 false ++ List.replicate 2 true) :=
  ⟨c3_debounce_amended.1 false 10 [30] 200 (by decide) (by decide),
   c3_debounce_amended.2 false 10 40000 [30] [50000] (by decide) (by decide) (by decide)⟩

/-- Helper: the blink bookkeeping does not change the machine state. -/
theorem blinkUpdate_state (s : Loop) (t : Tick) : (blinkUpdate s t).state = s.state := by
  unfold blinkUpdate; split <;> rfl

/-- Helper: the blink bookkeeping does not change the socket. -/
theorem blinkUpdate_sock (s : Loop) (t : Tick) : (blinkUpdate s t).sock = s.sock := by
  unfold blinkUpdate; split <;> rfl

/-- Helper: the blink bookkeeping does not change `wait_start`. -/
theorem blinkUpdate_wait_start (s : Loop) (t : Tick) :
    (blinkUpdate s t).wait_start = s.wait_start := by
  unfold blinkUpdate; split <;> rfl

/-- Helper: the blink bookkeeping does not change `process_start`. -/
theorem blinkUpdate_process_start (s : Loop) (t : Tick) :
    (blinkUpdate s t).process_start = s.process_start := by
  unfold blinkUpdate; split <;> rfl

/-- Helper: the session monitor distributes over trace append. -/
theorem sessionRun_append (a : List Ev) :
    ∀ (c : List Ev) (p : SessionPhase),
      sessionRun p (a ++ c) =
        match sessionRun p a with
        | none => none
        | some q => sessionRun q c := by
  induction a with
  | nil => intro c p; rfl
  | cons e rest ih =>
    intro c p
    simp only [List.cons_append, sessionRun]
    cases sessionStep p e with
    | none => rfl
    | some q => exact ih c q

/-- Helper: every loop iteration's event list is legal for the monitor and
takes the phase of the pre-state to the phase of the post-state. -/
theorem step_phase (s : Loop) (t : Tick) :
    sessionRun (phaseOf s.state) (step s t).2 = some (phaseOf (step s t).1.state) := by
  cases hst : s.state <;> simp only [step, hst]
  case idle =>
    by_cases hp : t.pressed
    · cases hc : t.connectRes <;>
        simp [hp, hc, sessionRun, sessionStep, phaseOf]
    · simp [hp, hst, sessionRun, phaseOf]
  case recording =>
    by_cases hi : t.i2sOk
    · by_cases hf : t.sendFrameOk
      · by_cases hb : t.pressed <;>
          simp [hi, hf, hb, hst, sessionRun, sessionStep, phaseOf]
      · simp [hi, hf, sessionRun, sessionStep, phaseOf]
    · simp [hi, hst, sessionRun, phaseOf]
  case wait =>
    by_cases hp : t.pressed
    · simp [hp, sessionRun, phaseOf, blinkUpdate_state, hst]
    · by_cases hto : WAIT_TIMEOUT_US < t.now - s.wait_start
      · by_cases hm : t.sendMarkerOk <;>
          simp [hp, hto, hm, sessionRun, sessionStep, phaseOf]
      · by_cases hi : t.i2sOk
        · by_cases hf : t.sendFrameOk <;>
            simp [hp, hto, hi, hf, sessionRun, sessionStep, phaseOf, blinkUpdate_state, hst]
        · simp [hp, hto, hi, sessionRun, phaseOf, blinkUpdate_state, hst]
  case processing =>
    by_cases hs : 0 < t.selectRes
    · by_cases ha : t.recvN = 1 ∧ t.recvByte = 1 <;>
        simp [hs, ha, sessionRun, sessionStep, phaseOf]
    · by_cases hn : t.selectRes < 0
      · simp [hs, hn, sessionRun, sessionStep, phaseOf]
      · by_cases hto : RECV_TIMEOUT_S * 1000 * 1000 < t.now - s.process_start <;>
          simp [hs, hn, hto, hst, sessionRun, sessionStep, phaseOf]

/-- Helper: over any run, the monitor accepts the emitted trace and tracks
the machine state's phase. -/
theorem runLoop_phase :
    ∀ (L : List Tick) (s : Loop),
      sessionRun (phaseOf s.state) (runLoop s L).2 =
        some (phaseOf (runLoop s L).1.state) := by
  intro L
  induction L with
  | nil => intro s; rfl
  | cons t ts ih =>
    intro s
    simp only [runLoop]
    rw [sessionRun_append, step_phase]
    exact ih (step s t).1

/-- C6 (amended): in every run of the control loop from its initial state,
the emitted I/O trace is accepted by the session-ordering monitor — so no
AudioFrame is sent without an open Session, no AudioFrame is sent after the
end marker of that Session, the end marker is sent at most once per Session
and only on an open Session, and the Session is closed only while open;
moreover the end marker is emitted exactly when PROCESSING is entered
(hence exactly once for every Session that reaches PROCESSING, strictly
after that Session's last AudioFrame). -/
theorem c6_ordering_amended :
    (∀ L : List Tick,
      sessionRun SessionPhase.noSession (runLoop initLoop L).2 =
        some (phaseOf (runLoop initLoop L).1.state)) ∧
    (∀ (s : Loop) (t : Tick), Ev.markerSent ∈ (step s t).2 →
      s.state = .wait ∧ (step s t).1.state = .processing) ∧
    (∀ (s : Loop) (t : Tick), s.state ≠ .processing →
      (step s t).1.state = .processing → Ev.markerSent ∈ (step s t).2) := by
  refine ⟨fun L => runLoop_phase L initLoop, ?_, ?_⟩
  · intro s t hm
    cases hst : s.state <;> simp only [step, hst] at hm ⊢
    case idle =>
      by_cases hp : t.pressed
      · cases hc : t.connectRes <;> simp [hp, hc] at hm
      · simp [hp] at hm
    case recording =>
      by_cases hi : t.i2sOk
      · by_cases hf : t.sendFrameOk
        · by_cases hb : t.pressed <;> simp [hi, hf, hb] at hm
        · simp [hi, hf] at hm
      · simp [hi] at hm
    case wait =>
      by_cases hp : t.pressed
      · simp [hp] at hm
      · by_cases hto : WAIT_TIMEOUT_US < t.now - s.wait_start
        · by_cases hmk : t.sendMarkerOk
          · simp [hp, hto, hmk]
          · simp [hp, hto, hmk] at hm
        · by_cases hi : t.i2sOk
          · by_cases hf : t.sendFrameOk <;> simp [hp, hto, hi, hf] at hm
          · simp [hp, hto, hi] at hm
    case processing =>
      by_cases hs : 0 < t.selectRes
      · by_cases ha : t.recvN = 1 ∧ t.recvByte = 1 <;> simp [hs, ha] at hm
      · by_cases hn : t.selectRes < 0
        · simp [hs, hn] at hm
        · by_cases hto : RECV_TIMEOUT_S * 1000 * 1000 < t.now - s.process_start <;>
            simp [hs, hn, hto] at hm
  · intro s t hpre hpost
    cases hst : s.state <;> simp only [step, hst] at hpost ⊢
    case idle =>
      by_cases hp : t.pressed
      · cases hc : t.connectRes <;> simp [hp, hc, hst] at hpost
      · simp [hp, hst] at hpost
    case recording =>
      by_cases hi : t.i2sOk
      · by_cases hf : t.sendFrameOk
        · by_cases hb : t.pressed <;> simp [hi, hf, hb, hst] at hpost
        · simp [hi, hf, hst] at hpost
      · simp [hi, hst] at hpost
    case wait =>
      by_cases hp : t.pressed
      · simp [hp, blinkUpdate_state, hst] at hpost
      · by_cases hto : WAIT_TIMEOUT_US < t.now - s.wait_start
        · by_cases hmk : t.sendMarkerOk
          · simp [hp, hto, hmk]
          · simp [hp, hto, hmk] at hpost
        · by_cases hi : t.i2sOk
          · by_cases hf : t.sendFrameOk <;>
              simp [hp, hto, hi, hf, blinkUpdate_state, hst] at hpost
          · simp [hp, hto, hi, blinkUpdate_state, hst] at hpost
    case processing => exact absurd hst hpre

/-- C6 counterexample: a Session opened by a press whose first frame send
fails is closed with no end marker ever sent on it — the trace of the
two-iteration run is exactly a successful connect followed by a close, with
zero `markerSent` events, contradicting the claim that the end marker is
sent exactly once per Session. -/
theorem c6_ordering_cex :
    (runLoop initLoop [cexConnectTick, cexSendFailTick]).2 = [Ev.connected 5, Ev.closed] ∧
    countEv isMarkerEv (runLoop initLoop [cexConnectTick, cexSendFailTick]).2 = 0 ∧
    countEv isConnectEv (runLoop initLoop [cexConnectTick, cexSendFailTick]).2 = 1 ∧
    countEv isCloseEv (runLoop initLoop [cexConnectTick, cexSendFailTick]).2 = 1 := by
  refine ⟨by decide, by decide, by decide, by decide⟩

/-- C6 witness: the marker-on-entry part of the amended theorem applied at a
concrete WAIT context whose grace period has expired. -/
theorem c6_ordering_amended_witness :
    waitCtx.state = MachState.wait ∧ (step waitCtx graceTick).1.state = .processing :=
  c6_ordering_amended.2.1 waitCtx graceTick (by decide)

/-- C1: the overall PROCESSING deadline is measured from the
PROCESSING-entry timestamp: (i) the WAIT→PROCESSING transition records
`process_start := now` at the entry instant; (ii) from PROCESSING, an
iteration in which no byte is available (`select` returns 0) closes the
Session — emitting exactly one close — and reaches IDLE with the socket
cleared if and only if `now - process_start` exceeds
`RECV_TIMEOUT_S` = 120 s, and otherwise changes nothing; (iii) an IDLE
iteration never emits a close, so the close and the transition to IDLE
happen exactly once. -/
theorem c1_processing_timeout :
    (∀ (s : Loop) (t : Tick), s.state = .wait → t.pressed = false →
      WAIT_TIMEOUT_US < t.now - s.wait_start → t.sendMarkerOk = true →
      (step s t).1.state = .processing ∧ (step s t).1.process_start = t.now) ∧
    (∀ (s : Loop) (t : Tick), s.state = .processing → t.selectRes = 0 →
      (if RECV_TIMEOUT_S * 1000 * 1000 < t.now - s.process_start
       then (step s t).1.state = .idle ∧ (step s t).1.sock = -1 ∧
            (step s t).2 = [Ev.closed]
       else (step s t).1 = s ∧ (step s t).2 = [])) ∧
    (∀ (s : Loop) (t : Tick), s.state = .idle → Ev.closed ∉ (step s t).2) := by
  refine ⟨?_, ?_, ?_⟩
  · intro s t hst hp hto hmk
    simp [step, hst, hp, hto, hmk]
  · intro s t hst hsel
    have hs : ¬ 0 < t.selectRes := by omega
    have hn : ¬ t.selectRes < 0 := by omega
    by_cases hto : RECV_TIMEOUT_S * 1000 * 1000 < t.now - s.process_start
    · rw [if_pos hto]
      simp [step, hst, hs, hn, hto]
    · rw [if_neg hto]
      simp [step, hst, hs, hn, hto]
  · intro s t hst hm
    simp only [step, hst] at hm
    by_cases hp : t.pressed
    · cases hc : t.connectRes <;> simp [hp, hc] at hm
    · simp [hp] at hm

/-- C1 witness: the theorem applied at a concrete WAIT context whose grace
period expired (entry records the clock), at a concrete PROCESSING context
past the deadline with no byte available, and at the initial IDLE context. -/
theorem c1_processing_timeout_witness :
    ((step waitCtx graceTick).1.state = .processing ∧
      (step waitCtx graceTick).1.process_start = graceTick.now) ∧
    ((step procCtx timeoutTick).1.state = .idle ∧
      (step procCtx timeoutTick).1.sock = -1 ∧
      (step procCtx timeoutTick).2 = [Ev.closed]) ∧
    Ev.closed ∉ (step initLoop baseTick).2 := by
  refine ⟨c1_processing_timeout.1 waitCtx graceTick rfl rfl (by decide) rfl, ?_, ?_⟩
  · have h := c1_processing_timeout.2.1 procCtx timeoutTick rfl rfl
    rwa [if_pos (by decide)] at h
  · exact c1_processing_timeout.2.2 initLoop baseTick rfl

/-- C2: when the WAIT grace period elapses with no re-press and the
end-marker send fails, the iteration closes the Session (exactly one close
event, no marker event), clears the socket and reaches IDLE — it never
proceeds to PROCESSING. -/
theorem c2_marker_send_failure :
    ∀ (s : Loop) (t : Tick), s.state = .wait → t.pressed = false →
      WAIT_TIMEOUT_US < t.now - s.wait_start → t.sendMarkerOk = false →
      (step s t).1.state = .idle ∧ (step s t).1.sock = -1 ∧
      (step s t).2 = [Ev.closed] ∧ Ev.markerSent ∉ (step s t).2 ∧
      (step s t).1.state ≠ .processing := by
  intro s t hst hp hto hmk
  simp [step, hst, hp, hto, hmk]

/-- C2 witness: the theorem applied at a concrete WAIT context whose grace
period expired with a failing marker send. -/
theorem c2_marker_send_failure_witness :
    (step waitCtx graceFailTick).1.state = .idle ∧
    (step waitCtx graceFailTick).1.sock = -1 ∧
    (step waitCtx graceFailTick).2 = [Ev.closed] ∧
    Ev.markerSent ∉ (step waitCtx graceFailTick).2 ∧
    (step waitCtx graceFailTick).1.state ≠ .processing :=
  c2_marker_send_failure waitCtx graceFailTick rfl rfl (by decide) rfl

/-- C5: (i) a WAIT iteration with the button pressed again resumes
RECORDING with the same socket and emits no I/O event — in particular no
connect; (ii) a successful connect is only ever emitted from IDLE;
(iii) in the concrete press/frames/release/re-press-within-grace run,
exactly one connection is opened over the whole interaction and the
machine ends RECORDING on the original socket. -/
theorem c5_single_connection :
    (∀ (s : Loop) (t : Tick), s.state = .wait → t.pressed = true →
      (step s t).1.state = .recording ∧ (step s t).1.sock = s.sock ∧
      (step s t).2 = []) ∧
    (∀ (s : Loop) (t : Tick) (h : Nat),
      Ev.connected h ∈ (step s t).2 → s.state = .idle) ∧
    countEv isConnectEv (runLoop initLoop resumeScenario).2 = 1 ∧
    (runLoop initLoop resumeScenario).1.state = .recording ∧
    (runLoop initLoop resumeScenario).1.sock = 7 := by
  refine ⟨?_, ?_, by decide, by decide, by decide⟩
  · intro s t hst hp
    simp [step, hst, hp, blinkUpdate_sock]
  · intro s t h hm
    cases hst : s.state <;> simp only [step, hst] at hm
    case idle => rfl
    case recording =>
      by_cases hi : t.i2sOk
      · by_cases hf : t.sendFrameOk
        · by_cases hb : t.pressed <;> simp [hi, hf, hb] at hm
        · simp [hi, hf] at hm
      · simp [hi] at hm
    case wait =>
      by_cases hp : t.pressed
      · simp [hp] at hm
      · by_cases hto : WAIT_TIMEOUT_US < t.now - s.wait_start
        · by_cases hmk : t.sendMarkerOk <;> simp [hp, hto, hmk] at hm
        · by_cases hi : t.i2sOk
          · by_cases hf : t.sendFrameOk <;> simp [hp, hto, hi, hf] at hm
          · simp [hp, hto, hi] at hm
    case processing =>
      by_cases hs : 0 < t.selectRes
      · by_cases ha : t.recvN = 1 ∧ t.recvByte = 1 <;> simp [hs, ha] at hm
      · by_cases hn : t.selectRes < 0
        · simp [hs, hn] at hm
        · by_cases hto : RECV_TIMEOUT_S * 1000 * 1000 < t.now - s.process_start <;>
            simp [hs, hn, hto] at hm

/-- C5 witness: the resume part applied at a concrete WAIT context with a
re-press inside the grace period. -/
theorem c5_single_connection_witness :
    (step waitCtx resumeTick).1.state = .recording ∧
    (step waitCtx resumeTick).1.sock = waitCtx.sock ∧
    (step waitCtx resumeTick).2 = [] :=
  c5_single_connection.1 waitCtx resumeTick rfl rfl

/-- C8: in PROCESSING, when the bounded wait reports a readable Session
(`select` > 0), the iteration reads, classifies the result — success
exactly when one byte of value 0x01 was read, anomalous for any other
single-byte value, a zero-length read, or a read error — and in every case
closes the Session once and reaches IDLE; a `select` error likewise closes
the Session once and reaches IDLE.  No retry occurs. -/
theorem c8_ack_handling :
    ∀ (s : Loop) (t : Tick), s.state = .processing →
      (0 < t.selectRes →
        (step s t).1.state = .idle ∧ (step s t).1.sock = -1 ∧
        (step s t).2 =
          [if t.recvN = 1 ∧ t.recvByte = 1 then Ev.ackOk else Ev.ackBad, Ev.closed]) ∧
      (t.selectRes < 0 →
        (step s t).1.state = .idle ∧ (step s t).1.sock = -1 ∧
        (step s t).2 = [Ev.closed]) := by
  intro s t hst
  constructor
  · intro hs
    simp [step, hst, hs]
  · intro hn
    have hs : ¬ 0 < t.selectRes := by omega
    simp [step, hst, hs, hn]

/-- C8 witness: the theorem applied at a concrete PROCESSING context for
the 0x01 success byte and for a zero-length read. -/
theorem c8_ack_handling_witness :
    ((step procCtx ackTick).1.state = .idle ∧ (step procCtx ackTick).1.sock = -1 ∧
      (step procCtx ackTick).2 = [Ev.ackOk, Ev.closed]) ∧
    ((step procCtx eofTick).1.state = .idle ∧ (step procCtx eofTick).1.sock = -1 ∧
      (step procCtx eofTick).2 = [Ev.ackBad, Ev.closed]) := by
  constructor
  · have h := (c8_ack_handling procCtx ackTick rfl).1 (by decide)
    simpa using h
  · have h := (c8_ack_handling procCtx eofTick rfl).1 (by decide)
    simpa using h

/-- Helper: one iteration preserves the socket-handle invariant. -/
theorem sockInv_step (s : Loop) (t : Tick) (hinv : sockInv s) :
    sockInv (step s t).1 := by
  obtain ⟨h1, h2⟩ := hinv
  cases hst : s.state
  case idle =>
    have hsock := h1 hst
    by_cases hp : t.pressed
    · cases hc : t.connectRes <;>
        simp [step, sockInv, hst, hp, hc]
    · simp [step, sockInv, hst, hp, hsock]
  case recording =>
    have hsock := h2 (by simp [hst])
    by_cases hi : t.i2sOk
    · by_cases hf : t.sendFrameOk
      · by_cases hb : t.pressed <;>
          simp [step, sockInv, hst, hi, hf, hb, hsock]
      · simp [step, sockInv, hst, hi, hf]
    · simp [step, sockInv, hst, hi, hsock]
  case wait =>
    have hsock := h2 (by simp [hst])
    by_cases hp : t.pressed
    · simp [step, sockInv, hst, hp, blinkUpdate_sock, hsock]
    · by_cases hto : WAIT_TIMEOUT_US < t.now - s.wait_start
      · by_cases hmk : t.sendMarkerOk <;>
          simp [step, sockInv, hst, hp, hto, hmk, blinkUpdate_sock, blinkUpdate_state, hsock]
      · by_cases hi : t.i2sOk
        · by_cases hf : t.sendFrameOk <;>
            simp [step, sockInv, hst, hp, hto, hi, hf, blinkUpdate_sock, blinkUpdate_state, hsock]
        · simp [step, sockInv, hst, hp, hto, hi, blinkUpdate_sock, blinkUpdate_state, hsock]
  case processing =>
    have hsock := h2 (by simp [hst])
    by_cases hs : 0 < t.selectRes
    · by_cases ha : t.recvN = 1 ∧ t.recvByte = 1 <;>
        simp [step, sockInv, hst, hs, ha]
    · by_cases hn : t.selectRes < 0
      · simp [step, sockInv, hst, hs, hn]
      · by_cases hto : RECV_TIMEOUT_S * 1000 * 1000 < t.now - s.process_start <;>
          simp [step, sockInv, hst, hs, hn, hto, hsock]

/-- Helper: the socket-handle invariant holds along every run. -/
theorem sockInv_runLoop :
    ∀ (L : List Tick) (s : Loop), sockInv s → sockInv (runLoop s L).1 := by
  intro L
  induction L with
  | nil => intro s h; exact h
  | cons t ts ih => intro s h; exact ih (step s t).1 (sockInv_step s t h)

/-- C10: in every reachable configuration of the control loop the socket
handle is the sentinel -1 exactly when the machine is in IDLE; and every
iteration that emits a close starts from a non-IDLE state with a
non-negative (open) handle and, in the same step, resets the handle to -1
and reaches IDLE — so close is never invoked on the sentinel and no
non-IDLE state runs without an open socket. -/
theorem c10_socket_sentinel :
    (∀ L : List Tick,
      ((runLoop initLoop L).1.state = .idle ↔ (runLoop initLoop L).1.sock = -1)) ∧
    (∀ L : List Tick, (runLoop initLoop L).1.state ≠ .idle →
      0 ≤ (runLoop initLoop L).1.sock) ∧
    (∀ (s : Loop) (t : Tick), sockInv s → Ev.closed ∈ (step s t).2 →
      s.state ≠ .idle ∧ 0 ≤ s.sock ∧
      (step s t).1.state = .idle ∧ (step s t).1.sock = -1) := by
  have hinit : sockInv initLoop := ⟨fun _ => rfl, fun h => absurd rfl h⟩
  refine ⟨?_, ?_, ?_⟩
  · intro L
    obtain ⟨h1, h2⟩ := sockInv_runLoop L initLoop hinit
    constructor
    · exact h1
    · intro hs
      by_contra hne
      have := h2 hne
      omega
  · intro L
    exact (sockInv_runLoop L initLoop hinit).2
  · intro s t hinv hm
    obtain ⟨h1, h2⟩ := hinv
    cases hst : s.state
    case idle =>
      simp only [step, hst] at hm
      by_cases hp : t.pressed
      · cases hc : t.connectRes <;> simp [hp, hc] at hm
      · simp [hp] at hm
    case recording =>
      refine ⟨by simp [hst], h2 (by simp [hst]), ?_⟩
      simp only [step, hst] at hm ⊢
      by_cases hi : t.i2sOk
      · by_cases hf : t.sendFrameOk
        · by_cases hb : t.pressed <;> simp [hi, hf, hb] at hm
        · simp [hi, hf]
      · simp [hi] at hm
    case wait =>
      refine ⟨by simp [hst], h2 (by simp [hst]), ?_⟩
      simp only [step, hst] at hm ⊢
      by_cases hp : t.pressed
      · simp [hp] at hm
      · by_cases hto : WAIT_TIMEOUT_US < t.now - s.wait_start
        · by_cases hmk : t.sendMarkerOk
          · simp [hp, hto, hmk] at hm
          · simp [hp, hto, hmk]
        · by_cases hi : t.i2sOk
          · by_cases hf : t.sendFrameOk
            · simp [hp, hto, hi, hf] at hm
            · simp [hp, hto, hi, hf]
          · simp [hp, hto, hi] at hm
    case processing =>
      refine ⟨by simp [hst], h2 (by simp [hst]), ?_⟩
      simp only [step, hst] at hm ⊢
      by_cases hs : 0 < t.selectRes
      · by_cases ha : t.recvN = 1 ∧ t.recvByte = 1 <;> simp [hs, ha]
      · by_cases hn : t.selectRes < 0
        · simp [hs, hn]
        · by_cases hto : RECV_TIMEOUT_S * 1000 * 1000 < t.now - s.process_start
          · simp [hs, hn, hto]
          · simp [hs, hn, hto] at hm

/-- C10 witness: the close-transition part applied at a concrete PROCESSING
context with an overall timeout. -/
theorem c10_socket_sentinel_witness :
    procCtx.state ≠ MachState.idle ∧ 0 ≤ procCtx.sock ∧
    (step procCtx timeoutTick).1.state = .idle ∧
    (step procCtx timeoutTick).1.sock = -1 :=
  c10_socket_sentinel.2.2 procCtx timeoutTick
    ⟨fun h => by simp [procCtx] at h, fun _ => by decide⟩ (by decide)
